import Mathlib

/-!
Verification of the supiki desktop-mascot backend (Rust) against its
natural-language specification.  Each Rust function relevant to the spec's
testable properties is shallowly embedded as an executable Lean definition,
translated directly from the source, and the spec's claims are settled as
theorems about those definitions.
-/

namespace Supiki

/-! ## Command builder escaping (src/src-tauri/src/codex/command.rs)

`CodexCommandBuilder::with_system_prompt` escapes the prompt with
`prompt.replace('\\', "\\\\").replace('"', "\\\"").replace('\n', "\\n")`.
Rust `str::replace` with a `char` pattern replaces every occurrence of that
character by the replacement string; we embed it on `List Char`. -/

/-- Rust `str::replace(c, rep)` for a single-character pattern. -/
def rustReplace (c : Char) (rep : List Char) : List Char → List Char
  | [] => []
  | x :: xs =>
    if x = c then rep ++ rustReplace c rep xs else x :: rustReplace c rep xs

/-- The escape used by `CodexCommandBuilder::with_system_prompt`:
backslash, then double-quote, then newline, in that order. -/
def escapeSystemPrompt (s : List Char) : List Char :=
  rustReplace '\n' ['\\', 'n']
    (rustReplace '"' ['\\', '"']
      (rustReplace '\\' ['\\', '\\'] s))

/-- Per-character view of the same escape. -/
def escChar (c : Char) : List Char :=
  if c = '\\' then ['\\', '\\']
  else if c = '"' then ['\\', '"']
  else if c = '\n' then ['\\', 'n']
  else [c]

/-- Character-by-character concatenation of `escChar`. -/
def escapeAll : List Char → List Char
  | [] => []
  | c :: cs => escChar c ++ escapeAll cs

/-- Modelled from the spec: "the inverse unescape rule" — a left-to-right
scan turning `\\` back into `\`, `\"` into `"`, and `\n` into a newline.
(The repository only contains the escape direction; the consumer is the
external Codex CLI's TOML parser.) -/
def unescape : List Char → List Char
  | [] => []
  | [c] => [c]
  | a :: b :: rest =>
    if a = '\\' then (if b = 'n' then '\n' else b) :: unescape rest
    else a :: unescape (b :: rest)

theorem rustReplace_append (c : Char) (rep a b : List Char) :
    rustReplace c rep (a ++ b) = rustReplace c rep a ++ rustReplace c rep b := by
  induction a with
  | nil => rfl
  | cons x xs ih =>
    by_cases h : x = c <;> simp [rustReplace, h, ih]

theorem escapeSystemPrompt_eq_escapeAll (s : List Char) :
    escapeSystemPrompt s = escapeAll s := by
  induction s with
  | nil => rfl
  | cons c cs ih =>
    unfold escapeSystemPrompt at ih ⊢
    by_cases h1 : c = '\\'
    · subst h1
      simp [rustReplace, rustReplace_append, escapeAll, escChar, ih]
    · by_cases h2 : c = '"'
      · subst h2
        simp [rustReplace, rustReplace_append, escapeAll, escChar, ih]
      · by_cases h3 : c = '\n'
        · subst h3
          simp [rustReplace, rustReplace_append, escapeAll, escChar, ih]
        · simp [rustReplace, rustReplace_append, escapeAll, escChar, h1, h2, h3, ih]

theorem escChar_ne_nil (c : Char) : escChar c ≠ [] := by
  unfold escChar
  by_cases h1 : c = '\\' <;> by_cases h2 : c = '"' <;> by_cases h3 : c = '\n' <;>
    simp [h1, h2, h3]

theorem unescape_escapeAll (s : List Char) :
    unescape (escapeAll s) = s := by
  induction s with
  | nil => rfl
  | cons c cs ih =>
    by_cases h1 : c = '\\'
    · subst h1; simpa [escapeAll, escChar, unescape] using ih
    · by_cases h2 : c = '"'
      · subst h2; simpa [escapeAll, escChar, unescape] using ih
      · by_cases h3 : c = '\n'
        · subst h3; simpa [escapeAll, escChar, unescape] using ih
        · -- ordinary character: passes through unchanged
          cases cs with
          | nil => simp [escapeAll, escChar, h1, h2, h3, unescape]
          | cons d ds =>
            have hne : escapeAll (d :: ds) ≠ [] := by
              intro hc
              exact escChar_ne_nil d (List.append_eq_nil.mp hc).1
            obtain ⟨e, es, hes⟩ := List.exists_cons_of_ne_nil hne
            have hhead : escapeAll (c :: d :: ds) = c :: escapeAll (d :: ds) := by
              show escChar c ++ escapeAll (d :: ds) = _
              simp [escChar, h1, h2, h3]
            rw [hhead, hes, unescape, if_neg h1, ← hes, ih]

/-- **C1.** The escape used by the Codex command builder round-trips through
the inverse unescape rule (so it is injective): for every prompt `s`,
`unescape (escapeSystemPrompt s) = s`, and two prompts with equal escaped
forms are equal. -/
theorem escapeSystemPrompt_roundtrip_injective (s t : List Char) :
    unescape (escapeSystemPrompt s) = s ∧
      (escapeSystemPrompt s = escapeSystemPrompt t → s = t) := by
  constructor
  · rw [escapeSystemPrompt_eq_escapeAll]; exact unescape_escapeAll s
  · intro h
    have hs := (escapeSystemPrompt_eq_escapeAll s) ▸ unescape_escapeAll s
    have ht := (escapeSystemPrompt_eq_escapeAll t) ▸ unescape_escapeAll t
    calc s = unescape (escapeSystemPrompt s) := hs.symm
    _ = unescape (escapeSystemPrompt t) := by rw [h]
    _ = t := ht

/-- **C1 witness.** Concrete round-trip on a prompt containing a backslash,
a double-quote and a newline. -/
theorem escapeSystemPrompt_roundtrip_injective_witness :
    unescape (escapeSystemPrompt ['a', '\\', '"', '\n', 'b']) =
      ['a', '\\', '"', '\n', 'b'] ∧
    ['a', '\\', '"', '\n', 'b'] = ['a', '\\', '"', '\n', 'b'] := by
  refine ⟨(escapeSystemPrompt_roundtrip_injective
    ['a', '\\', '"', '\n', 'b'] ['a', '\\', '"', '\n', 'b']).1, ?_⟩
  exact (escapeSystemPrompt_roundtrip_injective
    ['a', '\\', '"', '\n', 'b'] ['a', '\\', '"', '\n', 'b']).2 rfl

/-! ## JSON values and parsing

The runners decode each stdout line with `serde_json::from_str` into a
tagged-union event type.  We embed a JSON value type mirroring
`serde_json::Value` and a line parser mirroring `serde_json`'s grammar for
the fragment the wire protocol uses (objects, arrays, strings with simple
escapes, integers, booleans, null). -/

/-- JSON values, as in `serde_json::Value` (numbers restricted to integers,
which is all the wire protocol carries). -/
inductive Json where
  | null : Json
  | bool (b : Bool) : Json
  | num (n : Int) : Json
  | str (s : String) : Json
  | arr (elems : List Json) : Json
  | obj (fields : List (String × Json)) : Json

/-- JSON insignificant whitespace. -/
def isJsonWs (c : Char) : Bool :=
  c = ' ' || c = '\t' || c = '\n' || c = '\r'

/-- Drop leading JSON whitespace. -/
def skipWs : List Char → List Char
  | [] => []
  | c :: cs => if isJsonWs c then skipWs cs else c :: cs

/-- Parse the body of a JSON string after the opening quote; returns the
decoded content and the remainder after the closing quote. -/
def strBody : List Char → Option (List Char × List Char)
  | [] => none
  | c :: cs =>
    if c = '"' then some ([], cs)
    else if c = '\\' then
      match cs with
      | [] => none
      | e :: cs2 =>
        let dec : Option Char :=
          if e = 'n' then some '\n'
          else if e = 't' then some '\t'
          else if e = 'r' then some '\r'
          else if e = '"' then some '"'
          else if e = '\\' then some '\\'
          else if e = '/' then some '/'
          else none
        match dec with
        | none => none
        | some d =>
          match strBody cs2 with
          | none => none
          | some (body, rest) => some (d :: body, rest)
    else
      match strBody cs with
      | none => none
      | some (body, rest) => some (c :: body, rest)

/-- Numeric value of a list of decimal digits. -/
def natOfDigits (ds : List Char) : Nat :=
  ds.foldl (fun a c => a * 10 + (c.toNat - 48)) 0

/-- Parse a nonempty run of decimal digits. -/
def takeDigits1 (input : List Char) : Option (Nat × List Char) :=
  let ds := input.takeWhile Char.isDigit
  let rest := input.dropWhile Char.isDigit
  if ds.isEmpty then none else some (natOfDigits ds, rest)

mutual

/-- Parse one JSON value (fuelled recursive descent). -/
def parseValue : Nat → List Char → Option (Json × List Char)
  | 0, _ => none
  | Nat.succ fuel, input =>
    match skipWs input with
    | [] => none
    | c :: cs =>
      if c = '"' then
        match strBody cs with
        | some (body, rest) => some (.str (String.mk body), rest)
        | none => none
      else if c = '{' then
        match skipWs cs with
        | '}' :: rest => some (.obj [], rest)
        | cs2 =>
          match parseMembers fuel cs2 with
          | some (fields, rest) => some (.obj fields, rest)
          | none => none
      else if c = '[' then
        match skipWs cs with
        | ']' :: rest => some (.arr [], rest)
        | cs2 =>
          match parseElems fuel cs2 with
          | some (elems, rest) => some (.arr elems, rest)
          | none => none
      else if c = 't' then
        match cs with
        | 'r' :: 'u' :: 'e' :: rest => some (.bool true, rest)
        | _ => none
      else if c = 'f' then
        match cs with
        | 'a' :: 'l' :: 's' :: 'e' :: rest => some (.bool false, rest)
        | _ => none
      else if c = 'n' then
        match cs with
        | 'u' :: 'l' :: 'l' :: rest => some (.null, rest)
        | _ => none
      else if c = '-' then
        match takeDigits1 cs with
        | some (n, rest) => some (.num (-(n : Int)), rest)
        | none => none
      else if c.isDigit then
        match takeDigits1 (c :: cs) with
        | some (n, rest) => some (.num (n : Int), rest)
        | none => none
      else none

/-- Parse the members of a JSON object after the opening brace (nonempty
case), consuming through the closing brace. -/
def parseMembers : Nat → List Char → Option (List (String × Json) × List Char)
  | 0, _ => none
  | Nat.succ fuel, input =>
    match skipWs input with
    | '"' :: cs =>
      match strBody cs with
      | some (key, rest) =>
        match skipWs rest with
        | ':' :: rest2 =>
          match parseValue fuel rest2 with
          | some (v, rest3) =>
            match skipWs rest3 with
            | ',' :: rest4 =>
              match parseMembers fuel rest4 with
              | some (fields, rest5) => some ((String.mk key, v) :: fields, rest5)
              | none => none
            | '}' :: rest4 => some ([(String.mk key, v)], rest4)
            | _ => none
          | none => none
        | _ => none
      | none => none
    | _ => none

/-- Parse the elements of a JSON array after the opening bracket (nonempty
case), consuming through the closing bracket. -/
def parseElems : Nat → List Char → Option (List Json × List Char)
  | 0, _ => none
  | Nat.succ fuel, input =>
    match parseValue fuel input with
    | some (v, rest) =>
      match skipWs rest with
      | ',' :: rest2 =>
        match parseElems fuel rest2 with
        | some (vs, rest3) => some (v :: vs, rest3)
        | none => none
      | ']' :: rest2 => some ([v], rest2)
      | _ => none
    | none => none

end

/-- Parse a whole line as one JSON value (as `serde_json::from_str`:
trailing whitespace allowed, anything else rejected). -/
def jsonParse (s : String) : Option Json :=
  match parseValue (s.length + 1) s.data with
  | some (j, rest) => if (skipWs rest).isEmpty then some j else none
  | none => none

/-- `serde_json::Value::get(key)`: field lookup on objects, `None` otherwise. -/
def Json.lookup (j : Json) (key : String) : Option Json :=
  match j with
  | .obj fields => List.lookup key fields
  | _ => none

/-! ## Claude stream events (src/src-tauri/src/claude/runner.rs)

`StreamEvent` is an internally tagged (`tag = "type"`, snake_case) enum; all
its leaf fields are `Option<String>` (missing or `null` → `None`, a
non-string value → parse error), except `Assistant.message` which is
required. -/

/-- A content block inside an assistant message (`ContentBlock`). -/
inductive ContentBlock where
  | text (text : String) : ContentBlock
  | toolUse (id : String) (name : String) (input : Json) : ContentBlock

/-- `AssistantMessage`: `content` defaults to the empty list when missing. -/
structure AssistantMessage where
  content : List ContentBlock

/-- `StreamEvent`, the Claude runner's line vocabulary. -/
inductive StreamEvent where
  | system (sessionId : Option String) (subtype : Option String) : StreamEvent
  | assistant (message : AssistantMessage) : StreamEvent
  | user (message : Option Json) : StreamEvent
  | result (subtype : Option String) (result : Option String)
      (sessionId : Option String) : StreamEvent

/-- serde decoding of an `Option<String>` struct field: absent or `null`
gives `none`, a string gives `some`, any other value is a parse error. -/
def optStrField (fields : List (String × Json)) (name : String) :
    Option (Option String) :=
  match List.lookup name fields with
  | none => some none
  | some (Json.str s) => some (some s)
  | some Json.null => some none
  | some _ => none

/-- serde decoding of one `ContentBlock` (tagged by `"type"`). -/
def contentBlockFromJson (j : Json) : Option ContentBlock :=
  match j with
  | .obj fields =>
    match List.lookup "type" fields with
    | some (.str "text") =>
      match List.lookup "text" fields with
      | some (.str t) => some (.text t)
      | _ => none
    | some (.str "tool_use") =>
      match List.lookup "id" fields, List.lookup "name" fields,
          List.lookup "input" fields with
      | some (.str id), some (.str name), some input =>
        some (.toolUse id name input)
      | _, _, _ => none
    | _ => none
  | _ => none

/-- serde decoding of `AssistantMessage`. -/
def assistantMessageFromJson (j : Json) : Option AssistantMessage :=
  match j with
  | .obj fields =>
    match List.lookup "content" fields with
    | none => some ⟨[]⟩
    | some (.arr elems) =>
      match elems.mapM contentBlockFromJson with
      | some blocks => some ⟨blocks⟩
      | none => none
    | some _ => none
  | _ => none

/-- serde decoding of one `StreamEvent` from a JSON value (internally
tagged by `"type"`; an unknown tag is a parse error). -/
def streamEventFromJson (j : Json) : Option StreamEvent :=
  match j with
  | .obj fields =>
    match List.lookup "type" fields with
    | some (.str "system") =>
      match optStrField fields "session_id", optStrField fields "subtype" with
      | some sid, some st => some (.system sid st)
      | _, _ => none
    | some (.str "assistant") =>
      match List.lookup "message" fields with
      | some m =>
        match assistantMessageFromJson m with
        | some msg => some (.assistant msg)
        | none => none
      | none => none
    | some (.str "user") =>
      match List.lookup "message" fields with
      | none => some (.user none)
      | some Json.null => some (.user none)
      | some v => some (.user (some v))
    | some (.str "result") =>
      match optStrField fields "subtype", optStrField fields "result",
          optStrField fields "session_id" with
      | some st, some r, some sid => some (.result st r sid)
      | _, _, _ => none
    | _ => none
  | _ => none

/-- `serde_json::from_str::<StreamEvent>` on one line. -/
def parseStreamEventLine (line : String) : Option StreamEvent :=
  (jsonParse line).bind streamEventFromJson

/-! ## Questions parsing for the AskUserQuestion tool -/

/-- `OptionData`: `label` required, `description` optional. -/
structure OptionData where
  label : String
  description : Option String

/-- `QuestionData`: `question` required; `header`, `options`,
`multiSelect` defaulted. -/
structure QuestionData where
  question : String
  header : Option String
  options : List OptionData
  multiSelect : Bool

/-- serde decoding of `OptionData`. -/
def optionDataFromJson (j : Json) : Option OptionData :=
  match j with
  | .obj fields =>
    match List.lookup "label" fields, optStrField fields "description" with
    | some (.str label), some d => some ⟨label, d⟩
    | _, _ => none
  | _ => none

/-- serde decoding of `QuestionData`. -/
def questionDataFromJson (j : Json) : Option QuestionData :=
  match j with
  | .obj fields =>
    match List.lookup "question" fields with
    | some (.str q) =>
      match optStrField fields "header" with
      | none => none
      | some header =>
        let options? : Option (List OptionData) :=
          match List.lookup "options" fields with
          | none => some []
          | some (.arr elems) => elems.mapM optionDataFromJson
          | some _ => none
        let multi? : Option Bool :=
          match List.lookup "multiSelect" fields with
          | none => some false
          | some (.bool b) => some b
          | some _ => none
        match options?, multi? with
        | some options, some multi => some ⟨q, header, options, multi⟩
        | _, _ => none
    | _ => none
  | _ => none

/-- The runner's question extraction:
`input.get("questions").and_then(|q| from_value(q).ok()).unwrap_or_default()`. -/
def decodeQuestions (input : Json) : List QuestionData :=
  match input.lookup "questions" with
  | some (.arr elems) =>
    match elems.mapM questionDataFromJson with
    | some qs => qs
    | none => []
  | _ => []

/-! ## Global state and emitted notifications

The runner's global cells (`SESSION_ID`, `CODEX_SESSION_ID`,
`ACTIVE_SUBAGENTS` in the runners; the on-disk session files written by
`save_session_to_disk` / `save_codex_session_to_disk`) are modelled as one
explicit state record, and each `app.emit(...)` as an element of an
emission list returned alongside the new state. -/

/-- Backend selection (`state.rs::BackendMode`). -/
inductive BackendMode where
  | claude : BackendMode
  | codex : BackendMode
deriving DecidableEq

/-- Mutable global state touched by the event handlers and commands:
`SESSION_ID`, `CODEX_SESSION_ID`, the two on-disk session files,
`ACTIVE_SUBAGENTS`, `SIDECAR_CWD`, `RECENT_CWDS`, `BACKEND_MODE`. -/
structure AppState where
  sessionId : Option String
  codexSessionId : Option String
  diskSession : Option String
  codexDiskSession : Option String
  activeSubagents : List String
  sidecarCwd : Option String
  recentCwds : List String
  backendMode : BackendMode

/-- One `app.emit(...)` call, by event channel. -/
inductive Emission where
  | agentStream (text : String) : Emission
  | subagentStart (taskId : String) (description : String) : Emission
  | subagentEnd (taskId : String) : Emission
  | exitPlanRequest (toolUseId : String) : Emission
  | askQuestion (questionId : String) (questions : List QuestionData) : Emission
  | agentEmotion (input : Json) : Emission
  | clawdMove (input : Json) : Emission
  | agentToolUse (tool : String) (input : Json) : Emission
  | agentResult (success : Bool) (text : String) : Emission
  | agentError (error : String) : Emission

/-- `pat` occurs as a contiguous sublist starting at some suffix of the
second argument. -/
def infixAt (pat : List Char) : List Char → Bool
  | [] => pat.isEmpty
  | x :: xs => List.isPrefixOf pat (x :: xs) || infixAt pat xs

/-- Rust `str::contains(&str)`: substring test. -/
def strContains (s pat : String) : Bool :=
  infixAt pat.data s.data

/-- The Task branch's description extraction:
`input.get("description").and_then(|v| v.as_str()).unwrap_or("task")`. -/
def descriptionOf (input : Json) : String :=
  match input.lookup "description" with
  | some (.str s) => s
  | _ => "task"

/-- The Task branch's identifier:
`format!("{}_{}", id, description.replace(' ', "_"))`. -/
def taskIdOf (id : String) (input : Json) : String :=
  id ++ "_" ++ String.mk (rustReplace ' ' ['_'] (descriptionOf input).data)

/-- The `if name == "Task"` step: record the subagent and emit
`subagent-start`. -/
def taskStep (st : AppState) (id name : String) (input : Json) :
    AppState × List Emission :=
  if name = "Task" then
    ({ st with activeSubagents := st.activeSubagents ++ [taskIdOf id input] },
      [.subagentStart (taskIdOf id input) (descriptionOf input)])
  else (st, [])

/-- The interactive/mascot-tool `if`/`else if` chain of the ToolUse branch. -/
def mascotChain (id name : String) (input : Json) : List Emission :=
  if name = "ExitPlanMode" then [.exitPlanRequest id]
  else if name = "AskUserQuestion" then [.askQuestion id (decodeQuestions input)]
  else if strContains name "set_emotion" then [.agentEmotion input]
  else if strContains name "move_to" then [.clawdMove input]
  else if strContains name "capture_screenshot" then []
  else []

/-- The `ContentBlock::ToolUse` branch of `handle_stream_event`:
Task tracking, the interactive/mascot-tool `if`/`else if` chain, and the
unconditional generic `agent-tool-use` emission. -/
def handleToolUseBlock (st : AppState) (id name : String) (input : Json) :
    AppState × List Emission :=
  let step1 := taskStep st id name input
  (step1.1, step1.2 ++ mascotChain id name input ++ [.agentToolUse name input])

/-- Handling of one assistant content block. -/
def handleContentBlock (st : AppState) : ContentBlock → AppState × List Emission
  | .text t => (st, [.agentStream t])
  | .toolUse id name input => handleToolUseBlock st id name input

/-- Handling of a list of assistant content blocks, in order. -/
def handleBlocks (st : AppState) : List ContentBlock → AppState × List Emission
  | [] => (st, [])
  | b :: bs =>
    let r1 := handleContentBlock st b
    let r2 := handleBlocks r1.1 bs
    (r2.1, r1.2 ++ r2.2)

/-- `handle_stream_event` from the Claude runner. -/
def handleStreamEvent (st : AppState) : StreamEvent → AppState × List Emission
  | .system sid _ =>
    match sid with
    | some s => ({ st with sessionId := some s, diskSession := some s }, [])
    | none => (st, [])
  | .assistant msg => handleBlocks st msg.content
  | .user _ => (st, [])
  | .result subtype result sid =>
    let st1 :=
      match sid with
      | some s => { st with sessionId := some s, diskSession := some s }
      | none => st
    let ends := st1.activeSubagents.map Emission.subagentEnd
    let st2 := { st1 with activeSubagents := [] }
    (st2, ends ++ [.agentResult (decide (subtype = some "success"))
      ((result).getD "")])

/-- Rust `char::is_whitespace` (the Unicode `White_Space` set). -/
def isRustWs (c : Char) : Bool :=
  c = ' ' || c = '\t' || c = '\n' || c = '\r' ||
  c = '\x0b' || c = '\x0c' || c = '\x85' || c = '\xa0' ||
  c = '\u1680' || ('\u2000' ≤ c && c ≤ '\u200A') ||
  c = '\u2028' || c = '\u2029' || c = '\u202F' || c = '\u205F' || c = '\u3000'

/-- Rust `line.trim().is_empty()`: every character is whitespace. -/
def trimIsEmpty (line : String) : Bool :=
  line.data.all isRustWs

/-- One iteration of the stdout read loop: blank lines skipped, parse
failures logged and discarded (never aborting the loop), parsed events
dispatched to `handleStreamEvent`. -/
def processLine (st : AppState) (line : String) : AppState × List Emission :=
  if trimIsEmpty line then (st, [])
  else
    match parseStreamEventLine line with
    | some ev => handleStreamEvent st ev
    | none => (st, [])

/-! ## Codex stream events (src/src-tauri/src/codex_runner.rs) -/

/-- `CodexContent`: content block inside a Codex message item. -/
inductive CodexContent where
  | text (text : Option String) : CodexContent
  | inputText (text : Option String) : CodexContent
  | outputText (text : Option String) : CodexContent

/-- `CodexItem`: item payload of `item.started` / `item.completed`. -/
inductive CodexItem where
  | message (content : List CodexContent) : CodexItem
  | toolCall (name : Option String) (arguments : Option Json) : CodexItem
  | toolResult (content : Option String) : CodexItem
  | reasoning (content : Option String) : CodexItem
  | mcpToolCall (server : Option String) (tool : Option String)
      (arguments : Option Json) (result : Option Json)
      (error : Option String) (status : Option String) : CodexItem
  | agentMessage (text : Option String) : CodexItem

/-- `CodexStreamEvent`: the Codex runner's line vocabulary. -/
inductive CodexStreamEvent where
  | threadStarted (threadId : Option String) : CodexStreamEvent
  | turnStarted (turnId : Option String) : CodexStreamEvent
  | turnCompleted (turnId : Option String) : CodexStreamEvent
  | turnFailed (error : Option String) : CodexStreamEvent
  | itemStarted (item : Option CodexItem) : CodexStreamEvent
  | itemCompleted (item : Option CodexItem) : CodexStreamEvent
  | error (message : Option String) : CodexStreamEvent

/-- `extract_text_from_content`. -/
def extractTextFromContent : CodexContent → Option String
  | .text t => t
  | .inputText t => t
  | .outputText t => t

/-- `handle_tool_call` from the Codex runner: substring routing plus the
unconditional generic `agent-tool-use` emission; a nameless call is
ignored entirely. -/
def handleToolCall (name : Option String) (arguments : Option Json) :
    List Emission :=
  match name with
  | none => []
  | some name =>
    let input := arguments.getD (Json.obj [])
    (if strContains name "set_emotion" then [Emission.agentEmotion input]
     else if strContains name "move_to" then [Emission.clawdMove input]
     else if strContains name "capture_screenshot" then []
     else []) ++ [Emission.agentToolUse name input]

/-- `item.started` text accumulation over the blocks of a message item. -/
def foldStartedBlocks (acc : String) : List CodexContent → String × List Emission
  | [] => (acc, [])
  | b :: bs =>
    let r : String × List Emission :=
      match extractTextFromContent b with
      | some t =>
        if t.isEmpty then (acc, []) else (acc ++ t, [Emission.agentStream t])
      | none => (acc, [])
    let rest := foldStartedBlocks r.1 bs
    (rest.1, r.2 ++ rest.2)

/-- `item.completed` text accumulation: additionally skips text already
contained in the accumulated string. -/
def foldCompletedBlocks (acc : String) : List CodexContent → String × List Emission
  | [] => (acc, [])
  | b :: bs =>
    let r : String × List Emission :=
      match extractTextFromContent b with
      | some t =>
        if t.isEmpty || strContains acc t then (acc, [])
        else (acc ++ t, [Emission.agentStream t])
      | none => (acc, [])
    let rest := foldCompletedBlocks r.1 bs
    (rest.1, r.2 ++ rest.2)

/-- `handle_codex_event`: state, the `accumulated_text` buffer, and the
emissions produced. -/
def handleCodexEvent (st : AppState) (acc : String) :
    CodexStreamEvent → AppState × String × List Emission
  | .threadStarted tid =>
    match tid with
    | some t =>
      ({ st with codexSessionId := some t, codexDiskSession := some t }, acc, [])
    | none => (st, acc, [])
  | .turnStarted _ => (st, acc, [])
  | .itemStarted item =>
    match item with
    | none => (st, acc, [])
    | some it =>
      match it with
      | .message content =>
        let r := foldStartedBlocks acc content
        (st, r.1, r.2)
      | .toolCall name args => (st, acc, handleToolCall name args)
      | .mcpToolCall _ tool args _ _ _ => (st, acc, handleToolCall tool args)
      | .agentMessage text =>
        match text with
        | some t =>
          if t.isEmpty then (st, acc, [])
          else (st, acc ++ t, [Emission.agentStream t])
        | none => (st, acc, [])
      | _ => (st, acc, [])
  | .itemCompleted item =>
    match item with
    | none => (st, acc, [])
    | some it =>
      match it with
      | .message content =>
        let r := foldCompletedBlocks acc content
        (st, r.1, r.2)
      | .toolCall name args => (st, acc, handleToolCall name args)
      | .mcpToolCall _ tool args _ _ _ => (st, acc, handleToolCall tool args)
      | .agentMessage text =>
        match text with
        | some t =>
          if t.isEmpty || strContains acc t then (st, acc, [])
          else (st, acc ++ t, [Emission.agentStream t])
        | none => (st, acc, [])
      | _ => (st, acc, [])
  | .turnCompleted _ => (st, "", [Emission.agentResult true acc])
  | .turnFailed err => (st, acc, [Emission.agentError (err.getD "Turn failed")])
  | .error msg => (st, acc, [Emission.agentError (msg.getD "Unknown error")])

/-! ## Session store and commands (src/src-tauri/src/commands.rs, state.rs) -/

/-- `MAX_RECENT_CWDS`. -/
def MAX_RECENT_CWDS : Nat := 5

/-- The `RECENT_CWDS` update inside `set_sidecar_cwd`: remove any prior
occurrence, prepend, truncate to the bound. -/
def insertRecentCwd (recent : List String) (path : String) : List String :=
  let r := recent.filter (fun p => p != path)
  let r2 := path :: r
  if r2.length > MAX_RECENT_CWDS then r2.take MAX_RECENT_CWDS else r2

/-- `claude::runner::clear_session`. -/
def clearClaudeSession (st : AppState) : AppState :=
  { st with sessionId := none }

/-- `codex_runner::clear_session`. -/
def clearCodexSession (st : AppState) : AppState :=
  { st with codexSessionId := none }

/-- `set_sidecar_cwd`.  The filesystem check `Path::new(&path).is_dir()`
(false when the path is missing or not a directory) is abstracted as the
`isDir` environment parameter.  The returned pair carries the Rust return
value and the state after the call (the validation failure returns before
any mutation, so the state passes through unchanged). -/
def setSidecarCwd (isDir : String → Bool) (st : AppState) (path : String) :
    Except String Unit × AppState :=
  if !(isDir path) then
    (Except.error ("Directory does not exist: " ++ path), st)
  else
    (Except.ok (), clearCodexSession (clearClaudeSession
      { st with
        recentCwds := insertRecentCwd st.recentCwds path,
        sidecarCwd := some path }))

/-- `set_backend_mode`: the Rust return value paired with the state after
the call. -/
def setBackendMode (st : AppState) (mode : String) :
    Except String Unit × AppState :=
  if mode = "claude" then
    (Except.ok (), { st with backendMode := BackendMode.claude })
  else if mode = "codex" then
    (Except.ok (), { st with backendMode := BackendMode.codex })
  else
    (Except.error
      ("Invalid backend mode: " ++ mode ++ ". Use \x27claude\x27 or \x27codex\x27."),
      st)

/-! ## Reply injection (src/src-tauri/src/claude/runner.rs)

`send_tool_result` and friends write a newline-terminated JSON message to
the retained `CLAUDE_STDIN` handle.  The handle slot is modelled as an
`Option Unit`; the result pairs the Rust return value with the list of
JSON messages actually written to the child process. -/

/-- `send_tool_result`. -/
def sendToolResult (stdin : Option Unit) (toolUseId content : String)
    (isError : Bool) : Except String Unit × List Json :=
  match stdin with
  | some _ =>
    let toolResultBlock :=
      if isError then
        Json.obj [("type", .str "tool_result"), ("tool_use_id", .str toolUseId),
          ("content", .str content), ("is_error", .bool true)]
      else
        Json.obj [("type", .str "tool_result"), ("tool_use_id", .str toolUseId),
          ("content", .str content)]
    let message := Json.obj [("type", .str "user"),
      ("message", Json.obj [("role", .str "user"),
        ("content", Json.arr [toolResultBlock])])]
    (Except.ok (), [message])
  | none => (Except.error "Claude stdin not available", [])

/-- `send_ask_user_question_result`. -/
def sendAskUserQuestionResult (stdin : Option Unit) (toolUseId content : String)
    (toolUseResult : Json) : Except String Unit × List Json :=
  match stdin with
  | some _ =>
    let toolResultBlock := Json.obj [("type", .str "tool_result"),
      ("tool_use_id", .str toolUseId), ("content", .str content)]
    let textBlock := Json.obj [("type", .str "text"), ("text", .str content)]
    let message := Json.obj [("type", .str "user"),
      ("message", Json.obj [("role", .str "user"),
        ("content", Json.arr [toolResultBlock, textBlock])]),
      ("toolUseResult", toolUseResult)]
    (Except.ok (), [message])
  | none => (Except.error "Claude stdin not available", [])

/-- `respond_to_ask_user_question` (the answers map is modelled as an
association list in iteration order). -/
def respondToAskUserQuestion (stdin : Option Unit) (toolUseId : String)
    (questionsJson : String) (answers : List (String × String)) :
    Except String Unit × List Json :=
  match jsonParse questionsJson with
  | none => (Except.error "Failed to parse questions JSON", [])
  | some questions =>
    let answersText := answers.map
      (fun p => "\"" ++ p.1 ++ "\"=\"" ++ p.2 ++ "\"")
    let content := "User has answered your questions: " ++
      String.intercalate ", " answersText ++
      ". You can now continue with the user\x27s answers in mind."
    let toolUseResult := Json.obj [("questions", questions),
      ("answers", Json.obj (answers.map (fun p => (p.1, Json.str p.2))))]
    sendAskUserQuestionResult stdin toolUseId content toolUseResult

/-- `confirm_exit_plan_mode`. -/
def confirmExitPlanMode (stdin : Option Unit) (toolUseId : String) :
    Except String Unit × List Json :=
  sendToolResult stdin toolUseId "Plan mode exited." false

/-- `deny_exit_plan_mode`. -/
def denyExitPlanMode (stdin : Option Unit) (toolUseId reason : String) :
    Except String Unit × List Json :=
  sendToolResult stdin toolUseId reason true

/-! ## Emission classifiers used in the statements -/

/-- Is this a `subagent-end` notification? -/
def isSubagentEnd : Emission → Bool
  | .subagentEnd _ => true
  | _ => false

/-- Is this a generic `agent-tool-use` notification? -/
def isAgentToolUse : Emission → Bool
  | .agentToolUse _ _ => true
  | _ => false

/-- Is this an `agent-emotion` notification? -/
def isAgentEmotion : Emission → Bool
  | .agentEmotion _ => true
  | _ => false

/-- Is this a `clawd-move` (movement) notification? -/
def isClawdMove : Emission → Bool
  | .clawdMove _ => true
  | _ => false

/-- The cold-start state: no sessions, nothing on disk, no subagents, no
working-directory override, empty recent list, Claude backend. -/
def initialState : AppState :=
  ⟨none, none, none, none, [], none, [], BackendMode.claude⟩

/-- The success-result line of the spec's parser test. -/
def resultLine : String :=
  "\x7b\"type\":\"result\",\"subtype\":\"success\",\"result\":\"done\",\"session_id\":\"abc\"\x7d"

/-- The malformed line of the spec's parser test. -/
def nonsenseLine : String := "\x7b\"type\":\"nonsense\"\x7d"

/-- **C4.** The line `{"type":"result","subtype":"success","result":"done",
"session_id":"abc"}` parses to a Result event; handling it stores session
id "abc" (in memory and on disk) and ends the emissions with a turn-result
notification with success `true` and text "done".  The line
`{"type":"nonsense"}` does not parse as a `StreamEvent` and the read-loop
step discards it, leaving the state unchanged and emitting nothing. -/
theorem result_line_parsed_nonsense_line_discarded (st : AppState) :
    parseStreamEventLine resultLine =
      some (StreamEvent.result (some "success") (some "done") (some "abc")) ∧
    (processLine st resultLine).1.sessionId = some "abc" ∧
    (processLine st resultLine).1.diskSession = some "abc" ∧
    (processLine st resultLine).2 =
      st.activeSubagents.map Emission.subagentEnd ++
        [Emission.agentResult true "done"] ∧
    parseStreamEventLine nonsenseLine = none ∧
    processLine st nonsenseLine = (st, []) :=
  ⟨rfl, rfl, rfl, rfl, rfl, rfl⟩

/-- **C9.** Clearing a backend's session after it was set to any value
leaves a `none` read; each clear touches only the in-memory identifier of
its backend — in particular the on-disk session-file contents (modelled by
the `diskSession` fields) are untouched. -/
theorem clear_session_resets_memory_only (st : AppState) (v w : Option String) :
    (clearClaudeSession { st with sessionId := v }).sessionId = none ∧
    (clearCodexSession { st with codexSessionId := w }).codexSessionId = none ∧
    clearClaudeSession st = { st with sessionId := none } ∧
    clearCodexSession st = { st with codexSessionId := none } ∧
    (clearClaudeSession st).diskSession = st.diskSession ∧
    (clearCodexSession st).codexDiskSession = st.codexDiskSession :=
  ⟨rfl, rfl, rfl, rfl, rfl, rfl⟩

/-- **C6.** With no retained stdin handle (no open turn), `send_tool_result`
and every responder built on it return a descriptive error and write
nothing to the child process. -/
theorem reply_injection_without_open_turn (toolUseId content reason : String)
    (isError : Bool) (tur : Json) (qj : String)
    (answers : List (String × String)) :
    sendToolResult none toolUseId content isError =
      (Except.error "Claude stdin not available", []) ∧
    confirmExitPlanMode none toolUseId =
      (Except.error "Claude stdin not available", []) ∧
    denyExitPlanMode none toolUseId reason =
      (Except.error "Claude stdin not available", []) ∧
    sendAskUserQuestionResult none toolUseId content tur =
      (Except.error "Claude stdin not available", []) ∧
    (respondToAskUserQuestion none toolUseId qj answers).2 = [] ∧
    (∃ e, (respondToAskUserQuestion none toolUseId qj answers).1 =
      Except.error e) := by
  refine ⟨rfl, rfl, rfl, rfl, ?_, ?_⟩ <;>
    · unfold respondToAskUserQuestion
      cases jsonParse qj <;> simp [sendAskUserQuestionResult]

/-- **C8.** `turn.failed` and `error` events emit exactly one turn-error
notification carrying the backend-supplied reason (or the source's default
when absent) and leave the whole state — in particular the active-subagent
set — unchanged; no subagent-end notification is emitted. -/
theorem turn_failed_emits_error_without_flush (st : AppState) (acc : String)
    (err msg : Option String) :
    handleCodexEvent st acc (CodexStreamEvent.turnFailed err) =
      (st, acc, [Emission.agentError (err.getD "Turn failed")]) ∧
    handleCodexEvent st acc (CodexStreamEvent.error msg) =
      (st, acc, [Emission.agentError (msg.getD "Unknown error")]) ∧
    [Emission.agentError (err.getD "Turn failed")].countP isSubagentEnd = 0 ∧
    [Emission.agentError (msg.getD "Unknown error")].countP isSubagentEnd = 0 :=
  ⟨rfl, rfl, rfl, rfl⟩

/-- **C10.** `set_backend_mode` accepts exactly `"claude"` and `"codex"`
(setting the selection accordingly) and rejects any other string with a
descriptive error, leaving the stored selection (and all other state)
unchanged. -/
theorem set_backend_mode_spec (st : AppState) (mode : String) :
    (mode ≠ "claude" → mode ≠ "codex" →
      setBackendMode st mode =
        (Except.error ("Invalid backend mode: " ++ mode ++
          ". Use \x27claude\x27 or \x27codex\x27."), st)) ∧
    setBackendMode st "claude" =
      (Except.ok (), { st with backendMode := BackendMode.claude }) ∧
    setBackendMode st "codex" =
      (Except.ok (), { st with backendMode := BackendMode.codex }) := by
  refine ⟨?_, rfl, rfl⟩
  intro h1 h2
  unfold setBackendMode
  rw [if_neg h1, if_neg h2]

/-- **C10 witness.** A concrete invalid mode string is rejected and the
state passes through unchanged. -/
theorem set_backend_mode_spec_witness :
    setBackendMode initialState "gpt" =
      (Except.error ("Invalid backend mode: gpt. Use \x27claude\x27 or \x27codex\x27."),
        initialState) := by
  exact (set_backend_mode_spec initialState "gpt").1 (by decide) (by decide)

/-- **C3.** `set_sidecar_cwd` fails with a descriptive error and leaves the
state unchanged when the path is not an existing directory; on success it
sets the override, updates the recent list, and clears both backends'
session identifiers, leaving everything else (including both on-disk
session files and the backend selection) unchanged. -/
theorem set_sidecar_cwd_spec (isDir : String → Bool) (st : AppState)
    (path : String) :
    (isDir path = false →
      setSidecarCwd isDir st path =
        (Except.error ("Directory does not exist: " ++ path), st)) ∧
    (isDir path = true →
      setSidecarCwd isDir st path =
        (Except.ok (), { st with
          sidecarCwd := some path,
          recentCwds := insertRecentCwd st.recentCwds path,
          sessionId := none,
          codexSessionId := none })) := by
  constructor
  · intro h; unfold setSidecarCwd; rw [h]; rfl
  · intro h; unfold setSidecarCwd; rw [h]; rfl

/-- **C3 witness.** Concrete failure (state untouched) and success (override
set, recent list updated, both sessions cleared). -/
theorem set_sidecar_cwd_spec_witness :
    setSidecarCwd (fun _ => false)
      { initialState with sessionId := some "s", codexSessionId := some "c" }
      "/nope" =
      (Except.error "Directory does not exist: /nope",
        { initialState with sessionId := some "s", codexSessionId := some "c" }) ∧
    setSidecarCwd (fun _ => true)
      { initialState with sessionId := some "s", codexSessionId := some "c" }
      "/home" =
      (Except.ok (), { initialState with
        sidecarCwd := some "/home", recentCwds := ["/home"],
        sessionId := none, codexSessionId := none }) := by
  constructor
  · exact (set_sidecar_cwd_spec (fun _ => false)
      { initialState with sessionId := some "s", codexSessionId := some "c" }
      "/nope").1 rfl
  · exact (set_sidecar_cwd_spec (fun _ => true)
      { initialState with sessionId := some "s", codexSessionId := some "c" }
      "/home").2 rfl

/-- **C5.** The recent-directories insertion keeps the list deduplicated,
most-recent-first, and bounded: the inserted path ends up exactly once and
at the front, the result never exceeds `MAX_RECENT_CWDS` entries, and
inserting a fresh path into a full list drops the oldest (last) entry. -/
theorem insert_recent_cwd_spec (recent : List String) (path : String) :
    (insertRecentCwd recent path).head? = some path ∧
    (insertRecentCwd recent path).count path = 1 ∧
    (insertRecentCwd recent path).length ≤ MAX_RECENT_CWDS ∧
    (path ∉ recent → recent.length = MAX_RECENT_CWDS →
      insertRecentCwd recent path = path :: recent.dropLast) := by
  refine ⟨?_, ?_, ?_, ?_⟩
  · simp only [insertRecentCwd, MAX_RECENT_CWDS]
    split
    · rfl
    · rfl
  · simp only [insertRecentCwd, MAX_RECENT_CWDS]
    have hzero : (recent.filter (fun p => p != path)).count path = 0 := by
      rw [List.count_eq_zero]
      intro hmem
      have := (List.mem_filter.mp hmem).2
      simp at this
    split
    · rw [List.take_succ_cons, List.count_cons_self]
      have hsub : List.Sublist ((recent.filter (fun p => p != path)).take 4)
          (recent.filter (fun p => p != path)) := List.take_sublist _ _
      have := hsub.count_le path
      omega
    · rw [List.count_cons_self]
      omega
  · simp only [insertRecentCwd, MAX_RECENT_CWDS]
    split
    · simp
    · rename_i hlen
      simp at hlen ⊢
      omega
  · intro h1 h2
    simp only [insertRecentCwd, MAX_RECENT_CWDS]
    have hfil : recent.filter (fun p => p != path) = recent := by
      apply List.filter_eq_self.mpr
      intro x hx
      simp
      rintro rfl
      exact h1 hx
    rw [hfil]
    unfold MAX_RECENT_CWDS at h2
    rw [if_pos (by simp [h2])]
    rw [List.take_succ_cons]
    congr 1
    rw [List.dropLast_eq_take, h2]

/-- **C5 witness.** Inserting a 6th distinct path into a full list of 5
drops the oldest entry; re-inserting a present path leaves one occurrence,
at the front. -/
theorem insert_recent_cwd_spec_witness :
    insertRecentCwd ["a", "b", "c", "d", "e"] "f" =
      "f" :: (["a", "b", "c", "d", "e"] : List String).dropLast ∧
    (insertRecentCwd ["b", "a", "b"] "b").count "b" = 1 ∧
    (insertRecentCwd ["b", "a", "b"] "b").head? = some "b" := by
  refine ⟨?_, ?_, ?_⟩
  · exact (insert_recent_cwd_spec ["a", "b", "c", "d", "e"] "f").2.2.2
      (by decide) (by decide)
  · exact (insert_recent_cwd_spec ["b", "a", "b"] "b").2.1
  · exact (insert_recent_cwd_spec ["b", "a", "b"] "b").1

/-- The state after two Task tool invocations (each arriving as an
assistant message with one `tool_use` block named `"Task"`). -/
def afterTwoTasks (st : AppState) (id1 id2 : String) (in1 in2 : Json) : AppState :=
  (handleStreamEvent
    ((handleStreamEvent st
      (StreamEvent.assistant ⟨[ContentBlock.toolUse id1 "Task" in1]⟩)).1)
    (StreamEvent.assistant ⟨[ContentBlock.toolUse id2 "Task" in2]⟩)).1

/-- **C2.** If two Task (subagent-start) invocations are recorded before
the turn's terminal result event, the active-subagent set holds exactly
their two identifiers in start order; handling the result event then emits
exactly two subagent-end notifications, one per identifier, in start
order (before the final turn-result notification), and empties the set. -/
theorem subagent_bulk_flush (st : AppState) (h : st.activeSubagents = [])
    (id1 id2 : String) (in1 in2 : Json) (subtype result sid : Option String) :
    (afterTwoTasks st id1 id2 in1 in2).activeSubagents =
      [taskIdOf id1 in1, taskIdOf id2 in2] ∧
    (handleStreamEvent (afterTwoTasks st id1 id2 in1 in2)
        (StreamEvent.result subtype result sid)).2 =
      [Emission.subagentEnd (taskIdOf id1 in1),
       Emission.subagentEnd (taskIdOf id2 in2),
       Emission.agentResult (decide (subtype = some "success")) (result.getD "")] ∧
    (handleStreamEvent (afterTwoTasks st id1 id2 in1 in2)
        (StreamEvent.result subtype result sid)).2.countP isSubagentEnd = 2 ∧
    (handleStreamEvent (afterTwoTasks st id1 id2 in1 in2)
        (StreamEvent.result subtype result sid)).1.activeSubagents = [] := by
  have h1 : afterTwoTasks st id1 id2 in1 in2 =
      { st with activeSubagents :=
          (st.activeSubagents ++ [taskIdOf id1 in1]) ++ [taskIdOf id2 in2] } := rfl
  have hsub : (afterTwoTasks st id1 id2 in1 in2).activeSubagents =
      [taskIdOf id1 in1, taskIdOf id2 in2] := by
    rw [h1]
    simp [h]
  refine ⟨hsub, ?_, ?_, ?_⟩
  · cases sid <;> simp [handleStreamEvent, hsub]
  · cases sid <;> simp [handleStreamEvent, hsub, isSubagentEnd]
  · cases sid <;> rfl

/-- **C2 witness.** Two concrete Task starts followed by a success result:
the flush emits exactly the two subagent-end notifications in start order
and leaves the set empty. -/
theorem subagent_bulk_flush_witness :
    (handleStreamEvent (afterTwoTasks initialState "i1" "i2"
        (Json.obj [("description", Json.str "do a thing")]) (Json.obj []))
        (StreamEvent.result (some "success") (some "done") none)).2 =
      [Emission.subagentEnd "i1_do_a_thing", Emission.subagentEnd "i2_task",
       Emission.agentResult true "done"] ∧
    (handleStreamEvent (afterTwoTasks initialState "i1" "i2"
        (Json.obj [("description", Json.str "do a thing")]) (Json.obj []))
        (StreamEvent.result (some "success") (some "done") none)).1.activeSubagents
      = [] := by
  have h := subagent_bulk_flush initialState rfl "i1" "i2"
    (Json.obj [("description", Json.str "do a thing")]) (Json.obj [])
    (some "success") (some "done") none
  exact ⟨h.2.1, h.2.2.2⟩

/-- **C7 counterexample.** The claim says name-specific routing is
substring-based: "any [name] containing `move_to` emits a movement
notification".  The source evaluates the substring rules in an `else if`
chain with `set_emotion` first, so the name `"set_emotion_move_to"`, which
does contain `"move_to"`, produces no movement notification in either
backend's handler. -/
theorem tool_routing_substring_claim_false :
    strContains "set_emotion_move_to" "move_to" = true ∧
    (handleToolUseBlock initialState "t1" "set_emotion_move_to"
      (Json.obj [])).2.countP isClawdMove = 0 ∧
    (handleToolCall (some "set_emotion_move_to") none).countP isClawdMove = 0 :=
  ⟨by decide, by decide, by decide⟩

/-- **C7 (amended).** Every ToolInvoked with a name emits exactly one
generic tool-used notification carrying the raw name and arguments, in
both backends' handlers.  Mascot routing is substring-based and evaluated
in order after the exact-match interactive rules: a name containing
`set_emotion` emits exactly one emotion notification; a name containing
`move_to` and not `set_emotion` emits exactly one movement notification;
the exact interactive names route to their interactive notifications and
suppress the substring rules. -/
theorem tool_routing_amended (st : AppState) (id name : String) (input : Json)
    (args : Option Json) :
    (handleToolUseBlock st id name input).2.countP isAgentToolUse = 1 ∧
    Emission.agentToolUse name input ∈ (handleToolUseBlock st id name input).2 ∧
    (handleToolCall (some name) args).countP isAgentToolUse = 1 ∧
    Emission.agentToolUse name (args.getD (Json.obj [])) ∈
      handleToolCall (some name) args ∧
    (strContains name "set_emotion" = true →
      (handleToolUseBlock st id name input).2.countP isAgentEmotion = 1 ∧
      (handleToolCall (some name) args).countP isAgentEmotion = 1) ∧
    (strContains name "move_to" = true → strContains name "set_emotion" = false →
      (handleToolUseBlock st id name input).2.countP isClawdMove = 1 ∧
      (handleToolCall (some name) args).countP isClawdMove = 1) ∧
    (name = "ExitPlanMode" →
      mascotChain id name input = [Emission.exitPlanRequest id]) ∧
    (name = "AskUserQuestion" →
      mascotChain id name input = [Emission.askQuestion id (decodeQuestions input)]) := by
  refine ⟨?_, ?_, ?_, ?_, ?_, ?_, ?_, ?_⟩
  · unfold handleToolUseBlock
    simp only [List.countP_append]
    have h1 : (taskStep st id name input).2.countP isAgentToolUse = 0 := by
      unfold taskStep
      split <;> simp [isAgentToolUse]
    have h2 : (mascotChain id name input).countP isAgentToolUse = 0 := by
      unfold mascotChain
      split
      · simp [isAgentToolUse]
      · split
        · simp [isAgentToolUse]
        · split
          · simp [isAgentToolUse]
          · split
            · simp [isAgentToolUse]
            · split <;> simp [isAgentToolUse]
    simp [h1, h2, isAgentToolUse]
  · unfold handleToolUseBlock
    simp
  · unfold handleToolCall
    dsimp only
    split
    · simp [isAgentToolUse]
    · split
      · simp [isAgentToolUse]
      · split <;> simp [isAgentToolUse]
  · unfold handleToolCall
    dsimp only
    simp
  · intro he
    have hn1 : name ≠ "ExitPlanMode" := by
      rintro rfl; exact absurd he (by decide)
    have hn2 : name ≠ "AskUserQuestion" := by
      rintro rfl; exact absurd he (by decide)
    have hchain : mascotChain id name input = [Emission.agentEmotion input] := by
      unfold mascotChain
      rw [if_neg hn1, if_neg hn2, if_pos he]
    constructor
    · unfold handleToolUseBlock
      simp only [List.countP_append, hchain]
      have h1 : (taskStep st id name input).2.countP isAgentEmotion = 0 := by
        unfold taskStep
        split <;> simp [isAgentEmotion]
      simp [h1, isAgentEmotion]
    · unfold handleToolCall
      dsimp only
      rw [if_pos he]
      simp [isAgentEmotion]
  · intro hm he
    have hn1 : name ≠ "ExitPlanMode" := by
      rintro rfl; exact absurd hm (by decide)
    have hn2 : name ≠ "AskUserQuestion" := by
      rintro rfl; exact absurd hm (by decide)
    have hchain : mascotChain id name input = [Emission.clawdMove input] := by
      unfold mascotChain
      rw [if_neg hn1, if_neg hn2, if_neg (by simp [he]), if_pos hm]
    constructor
    · unfold handleToolUseBlock
      simp only [List.countP_append, hchain]
      have h1 : (taskStep st id name input).2.countP isClawdMove = 0 := by
        unfold taskStep
        split <;> simp [isClawdMove]
      simp [h1, isClawdMove]
    · unfold handleToolCall
      dsimp only
      rw [if_neg (by simp [he]), if_pos hm]
      simp [isClawdMove]
  · intro h; subst h; rfl
  · intro h; subst h; rfl

/-- **C7 witness.** Concrete namespaced mascot tool names route to their
specific notifications (exactly once each) while still emitting the
generic tool-used notification. -/
theorem tool_routing_amended_witness :
    (handleToolUseBlock initialState "t1" "mcp__mascot__set_emotion"
      (Json.obj [])).2.countP isAgentEmotion = 1 ∧
    (handleToolCall (some "mcp__mascot__move_to") none).countP isClawdMove = 1 ∧
    (handleToolUseBlock initialState "t1" "mcp__mascot__set_emotion"
      (Json.obj [])).2.countP isAgentToolUse = 1 := by
  refine ⟨?_, ?_, ?_⟩
  · exact ((tool_routing_amended initialState "t1" "mcp__mascot__set_emotion"
      (Json.obj []) none).2.2.2.2.1 (by decide)).1
  · exact ((tool_routing_amended initialState "t1" "mcp__mascot__move_to"
      (Json.obj []) none).2.2.2.2.2.1 (by decide) (by decide)).2
  · exact (tool_routing_amended initialState "t1" "mcp__mascot__set_emotion"
      (Json.obj []) none).1

end Supiki
